import Mathlib

/-!
Verification development for the 3d-globe repository.

The core under verification is the orbital trail projection and
extrapolation algorithm of src/components/Globe.tsx (functions
updateISSPosition and updateOrbitLine) together with the polling and
retry tracking loop of src/services/issService.ts (getPosition and
startTracking).

Modelling conventions:
- JavaScript numbers are modelled by JSNum: an ideal real number, a signed
  infinity, or NaN.  The arithmetic used by the projection (addition,
  subtraction, multiplication, sine, cosine) follows the IEEE special-value
  rules of JavaScript on those constructors; finite arithmetic is ideal
  real arithmetic (no rounding, no overflow).
- THREE.Vector3 values stored in the trail are modelled by Vec3, a triple
  of real numbers; the vector operations used by the source (subVectors,
  crossVectors, length, normalize, multiplyScalar, and the composition of
  Matrix4.makeRotationAxis with Vector3.applyMatrix4) are translated from
  the three.js library sources, which the repository calls into.
- The tracking loop of startTracking is modelled as a labelled transition
  system whose suspension points (awaiting the fetch, awaiting the
  inter-poll delay) are the states, with the cancellation handle as an
  event; traces are lists of observable events.
- Mutation and object identity (Vector3.clone) are modelled by a point
  store that maps references (natural numbers) to Vec3 values.
-/

noncomputable section

/-- A JavaScript number: a finite ideal real, a signed infinity, or NaN. -/
inductive JSNum where
  | fin (val : ℝ)
  | posInf
  | negInf
  | nan

/-- JavaScript addition on JSNum (IEEE special-value rules). -/
def JSNum.add : JSNum → JSNum → JSNum
  | nan, _ => nan
  | _, nan => nan
  | fin a, fin b => fin (a + b)
  | fin _, posInf => posInf
  | fin _, negInf => negInf
  | posInf, fin _ => posInf
  | negInf, fin _ => negInf
  | posInf, posInf => posInf
  | negInf, negInf => negInf
  | posInf, negInf => nan
  | negInf, posInf => nan

/-- JavaScript subtraction on JSNum (IEEE special-value rules). -/
def JSNum.sub : JSNum → JSNum → JSNum
  | nan, _ => nan
  | _, nan => nan
  | fin a, fin b => fin (a - b)
  | fin _, posInf => negInf
  | fin _, negInf => posInf
  | posInf, fin _ => posInf
  | negInf, fin _ => negInf
  | posInf, posInf => nan
  | negInf, negInf => nan
  | posInf, negInf => posInf
  | negInf, posInf => negInf

/-- JavaScript multiplication on JSNum (IEEE special-value rules;
zero times an infinity is NaN). -/
def JSNum.mul : JSNum → JSNum → JSNum
  | nan, _ => nan
  | _, nan => nan
  | fin a, fin b => fin (a * b)
  | fin a, posInf => if 0 < a then posInf else if a < 0 then negInf else nan
  | fin a, negInf => if 0 < a then negInf else if a < 0 then posInf else nan
  | posInf, fin b => if 0 < b then posInf else if b < 0 then negInf else nan
  | negInf, fin b => if 0 < b then negInf else if b < 0 then posInf else nan
  | posInf, posInf => posInf
  | negInf, negInf => posInf
  | posInf, negInf => negInf
  | negInf, posInf => negInf

/-- JavaScript Math.sin: real sine on finite values, NaN on infinities
and NaN. -/
def JSNum.sin : JSNum → JSNum
  | fin a => fin (Real.sin a)
  | _ => nan

/-- JavaScript Math.cos: real cosine on finite values, NaN on infinities
and NaN. -/
def JSNum.cos : JSNum → JSNum
  | fin a => fin (Real.cos a)
  | _ => nan

/-- JavaScript isNaN on a JSNum. -/
def JSNum.isNaN : JSNum → Bool
  | nan => true
  | _ => false

/-- Number.isFinite on a JSNum: true exactly on finite values. -/
def JSNum.isFinite : JSNum → Bool
  | fin _ => true
  | _ => false

/-- The finite value carried by a JSNum; 0 on the non-finite
constructors (used only after a NaN guard has passed; the projection
never produces an infinity, see issProject_not_inf). -/
def JSNum.toReal : JSNum → ℝ
  | fin a => a
  | _ => 0

/-- A THREE.Vector3 with finite components, as stored in the trail
buffer. -/
@[ext] structure Vec3 where
  x : ℝ
  y : ℝ
  z : ℝ

/-- A THREE.Vector3 whose components are raw JavaScript numbers, as
produced by the projection before validation. -/
structure JSVec3 where
  x : JSNum
  y : JSNum
  z : JSNum

/-- View a finite vector as a JavaScript vector. -/
def Vec3.toJS (v : Vec3) : JSVec3 := ⟨.fin v.x, .fin v.y, .fin v.z⟩

/-- Extract the finite components of a JavaScript vector (total; junk 0
on non-finite components, which every call site excludes by a NaN
guard). -/
def JSVec3.toVec3 (p : JSVec3) : Vec3 := ⟨p.x.toReal, p.y.toReal, p.z.toReal⟩

/-- three.js Vector3.lengthSq: squared Euclidean length. -/
def Vec3.lengthSq (v : Vec3) : ℝ := v.x ^ 2 + v.y ^ 2 + v.z ^ 2

/-- three.js Vector3.length: Euclidean length. -/
def Vec3.length (v : Vec3) : ℝ := Real.sqrt v.lengthSq

/-- three.js Vector3.multiplyScalar. -/
def Vec3.multiplyScalar (v : Vec3) (s : ℝ) : Vec3 := ⟨v.x * s, v.y * s, v.z * s⟩

/-- three.js Vector3.divideScalar: multiplies by the reciprocal. -/
def Vec3.divideScalar (v : Vec3) (s : ℝ) : Vec3 := v.multiplyScalar (1 / s)

/-- three.js Vector3.normalize: divides by the length, or by 1 when the
length is zero (the JavaScript source guards with: this.length() or 1). -/
def Vec3.normalize (v : Vec3) : Vec3 :=
  v.divideScalar (if v.length = 0 then 1 else v.length)

/-- three.js Vector3.subVectors: componentwise difference. -/
def Vec3.subVectors (a b : Vec3) : Vec3 := ⟨a.x - b.x, a.y - b.y, a.z - b.z⟩

/-- three.js Vector3.crossVectors: cross product. -/
def Vec3.crossVectors (a b : Vec3) : Vec3 :=
  ⟨a.y * b.z - a.z * b.y, a.z * b.x - a.x * b.z, a.x * b.y - a.y * b.x⟩

/-- The composition of three.js Matrix4.makeRotationAxis (Rodrigues
rotation matrix about the given axis, not necessarily unit) with
Vector3.applyMatrix4 (whose perspective divide is by 1 here, since the
fourth matrix row is 0 0 0 1).  Entries are transcribed from the
three.js source. -/
def Vec3.applyRotationAxis (axis : Vec3) (angle : ℝ) (v : Vec3) : Vec3 :=
  let c := Real.cos angle
  let s := Real.sin angle
  let t := 1 - c
  let x := axis.x
  let y := axis.y
  let z := axis.z
  ⟨(t * x * x + c) * v.x + (t * x * y - s * z) * v.y + (t * x * z + s * y) * v.z,
   (t * x * y + s * z) * v.x + (t * y * y + c) * v.y + (t * y * z - s * x) * v.z,
   (t * x * z - s * y) * v.x + (t * y * z + s * x) * v.y + (t * z * z + c) * v.z⟩

/-- Globe.tsx: const MAX_TRAIL_LENGTH = 100 (primary implementation). -/
def MAX_TRAIL_LENGTH : ℕ := 100

/-- Globe.tsx: const FUTURE_POINTS = 200. -/
def FUTURE_POINTS : ℕ := 200

/-- Globe.tsx updateOrbitLine, trail maintenance (push then shift):
appends the new point, then removes the oldest point (index 0) when the
length exceeds MAX_TRAIL_LENGTH.  Generic in the element type; the
program instantiates it at Vector3 (and the reference model at point
references). -/
def pushTrail {α : Type} (orbitPoints : List α) (newPoint : α) : List α :=
  let pushed := orbitPoints ++ [newPoint]
  if MAX_TRAIL_LENGTH < pushed.length then pushed.tail else pushed

/-- Globe.tsx updateOrbitLine, validity filter on stored points.  A
stored point has real-number components and JavaScript isNaN is false on
every real number, so the defensive filter accepts every stored point. -/
def Vec3.isValidPoint (_ : Vec3) : Bool := true

/-- Globe.tsx updateOrbitLine, future-arc derivation: with at least two
valid points (the source indexes the last and second-to-last elements,
here the first two of the reversed list), rotate the last point about
the normalized cross product of the last point and the velocity by
angles stepping up to a quarter turn, re-normalizing and rescaling each
rotated point to the last point's length; with fewer than two points the
arc is empty. -/
def computeFuturePoints (validPoints : List Vec3) : List Vec3 :=
  match validPoints.reverse with
  | lastPoint :: secondLastPoint :: _ =>
      let velocity := Vec3.subVectors lastPoint secondLastPoint
      let orbitalPlaneNormal := (Vec3.crossVectors lastPoint velocity).normalize
      let radius := lastPoint.length
      (List.range FUTURE_POINTS).map (fun (k : ℕ) =>
        let i : ℝ := (k : ℝ) + 1
        let angle := i / (FUTURE_POINTS : ℝ) * Real.pi / 2
        let futurePoint := Vec3.applyRotationAxis orbitalPlaneNormal angle lastPoint
        futurePoint.normalize.multiplyScalar radius)
  | _ => []

/-- The observable result of one updateOrbitLine call: the trail buffer
after the call, and the point sequences handed to the past and future
line geometries (none when the early returns leave the geometry
untouched). -/
structure OrbitLineUpdate where
  orbitPoints : List Vec3
  pastLine : Option (List Vec3)
  futureLine : Option (List Vec3)

/-- Globe.tsx updateOrbitLine: rejects a position with a NaN component
(early return, trail unchanged); otherwise clones the position into the
trail with FIFO trimming, filters the trail for valid points, and
recomputes the past polyline and the future arc.  (The Array.isArray
re-initialization guard of the source is vacuous here since the buffer
is a list by type.) -/
def updateOrbitLine (orbitPoints : List Vec3) (position : JSVec3) : OrbitLineUpdate :=
  if position.x.isNaN || position.y.isNaN || position.z.isNaN then
    ⟨orbitPoints, none, none⟩
  else
    let newPoint := position.toVec3
    let trimmed := pushTrail orbitPoints newPoint
    let validPoints := trimmed.filter Vec3.isValidPoint
    if validPoints.length = 0 then ⟨trimmed, none, none⟩
    else ⟨trimmed, some validPoints, some (computeFuturePoints validPoints)⟩

/-- issService.ts ISSPosition record: latitude and longitude as parsed
JavaScript numbers, altitude and velocity as the service's constants. -/
structure ISSPosition where
  latitude : JSNum
  longitude : JSNum
  altitude : ℝ
  velocity : ℝ

/-- Globe.tsx updateISSPosition, projection block: phi, theta and the
new Cartesian position with radius 5.2, computed in JavaScript number
semantics. -/
def issProject (latitude longitude : JSNum) : JSVec3 :=
  let phi := JSNum.mul (JSNum.sub (.fin 90) latitude) (.fin (Real.pi / 180))
  let theta := JSNum.mul (JSNum.add longitude (.fin 180)) (.fin (Real.pi / 180))
  let radius : ℝ := 5.2
  ⟨JSNum.mul (JSNum.mul (.fin (-radius)) phi.sin) theta.cos,
   JSNum.mul (.fin radius) phi.cos,
   JSNum.mul (JSNum.mul (.fin radius) phi.sin) theta.sin⟩

/-- Globe.tsx updateISSPosition: projects the geodetic position, rejects
the result when a component is NaN (early return, trail unchanged),
otherwise updates the orbit line with the projected point.  The marker
mesh updates of the source are rendering effects outside the modelled
state. -/
def updateISSPosition (position : ISSPosition) (orbitPoints : List Vec3) : OrbitLineUpdate :=
  let newPosition := issProject position.latitude position.longitude
  if newPosition.x.isNaN || newPosition.y.isNaN || newPosition.z.isNaN then
    ⟨orbitPoints, none, none⟩
  else updateOrbitLine orbitPoints newPosition

/-! ### Position tracker service (issService.ts) -/

/-- The raw iss_position field of the upstream payload: latitude and
longitude as strings. -/
structure IssPositionRaw where
  latitude : String
  longitude : String

/-- The upstream JSON payload shape relevant to getPosition: the
iss_position field, or none when the field is absent. -/
structure IssApiResponse where
  iss_position : Option IssPositionRaw

/-- Digit run at the head of a character list, as values, with the rest. -/
def spanDigits : List Char → List ℕ × List Char
  | [] => ([], [])
  | c :: rest =>
      if c.isDigit then
        let (ds, r) := spanDigits rest
        ((c.toNat - 48) :: ds, r)
      else ([], c :: rest)

/-- Integer value of a digit run. -/
def digitsToNat (ds : List ℕ) : ℕ := ds.foldl (fun a d => 10 * a + d) 0

/-- Fractional value of a digit run read after the decimal point. -/
def fracToRat (ds : List ℕ) : ℚ := ds.foldr (fun d a => ((d : ℚ) + a) / 10) 0

/-- Modelled from the spec: the JavaScript parseFloat builtin applied to
the feed's numeric strings (the builtin is not repository code).  It
skips leading whitespace, reads an optional sign, a digit run, and an
optional fraction after a decimal point, ignores any trailing
characters, and returns NaN when no digit was read.  Exponents and the
Infinity literal, which the feed never sends, are not modelled. -/
def parseFloat (s : String) : JSNum :=
  let cs := s.data.dropWhile (fun c => c = ' ' || c = '\t' || c = '\n' || c = '\r')
  let signed : Bool × List Char :=
    match cs with
    | '-' :: r => (true, r)
    | '+' :: r => (false, r)
    | _ => (false, cs)
  let intPart := spanDigits signed.2
  let fracDs : List ℕ :=
    match intPart.2 with
    | '.' :: r => (spanDigits r).1
    | _ => []
  match intPart.1, fracDs with
  | [], [] => JSNum.nan
  | intDs, fds =>
      let mag : ℚ := (digitsToNat intDs : ℚ) + fracToRat fds
      JSNum.fin ((if signed.1 then -mag else mag : ℚ) : ℝ)

/-- issService.ts getPosition, response normalization (after the HTTP
status check): a payload without iss_position is an error; otherwise the
string coordinates are passed through parseFloat and the altitude and
velocity constants are attached. -/
def getPositionData (data : IssApiResponse) : Except String ISSPosition :=
  match data.iss_position with
  | none => .error "Invalid response format from ISS API"
  | some p => .ok ⟨parseFloat p.latitude, parseFloat p.longitude, 408, 7.66⟩

/-- The callback fired by one iteration of the tracking loop. -/
inductive TrackCallback where
  | update (position : ISSPosition)
  | failure (message : String)

/-- issService.ts startTracking, loop body routing: a successful fetch
is delivered through onUpdate, any thrown error through onError. -/
def trackTick (fetchResult : Except String ISSPosition) : TrackCallback :=
  match fetchResult with
  | .ok position => .update position
  | .error e => .failure e

/-! ### Tracking-loop transition system (issService.ts startTracking)

The loop body is: while isTracking, fetch the position (a suspension
point, during which the cancellation handle may abort the request), then
deliver onUpdate or onError, then await the inter-poll delay (a second
suspension point), and re-check isTracking at the top.  The cancellation
handle sets isTracking to false and aborts the in-flight request. -/

/-- Control location of the tracking loop. -/
inductive TrackPhase where
  | loopTop
  | fetching
  | fetchingAborted
  | delaying
  | exited
  deriving DecidableEq

/-- Tracking-loop configuration: the isTracking flag and the control
location. -/
structure TrackerState where
  isTracking : Bool
  phase : TrackPhase
  deriving DecidableEq

/-- Observable events of the tracking loop: a network request being
issued, an onUpdate delivery, an onError delivery, the cancellation
handle being invoked, and silent scheduler steps. -/
inductive TrackEv where
  | req
  | update
  | err
  | cancel
  | tau
  deriving DecidableEq

/-- Labelled small-step semantics of the startTracking loop together
with the cancellation handle. -/
inductive TrackStep : TrackerState → TrackEv → TrackerState → Prop where
  | startFetch :
      TrackStep ⟨true, .loopTop⟩ .req ⟨true, .fetching⟩
  | exitLoop :
      TrackStep ⟨false, .loopTop⟩ .tau ⟨false, .exited⟩
  | fetchOk :
      TrackStep ⟨true, .fetching⟩ .update ⟨true, .delaying⟩
  | fetchFail :
      TrackStep ⟨true, .fetching⟩ .err ⟨true, .delaying⟩
  | fetchAbortedFail :
      TrackStep ⟨false, .fetchingAborted⟩ .err ⟨false, .delaying⟩
  | delayDone (t : Bool) :
      TrackStep ⟨t, .delaying⟩ .tau ⟨t, .loopTop⟩
  | cancelAtLoopTop :
      TrackStep ⟨true, .loopTop⟩ .cancel ⟨false, .loopTop⟩
  | cancelAtDelay :
      TrackStep ⟨true, .delaying⟩ .cancel ⟨false, .delaying⟩
  | cancelAtFetch :
      TrackStep ⟨true, .fetching⟩ .cancel ⟨false, .fetchingAborted⟩

/-- Finite executions of the tracking loop, recording the event list. -/
inductive TrackTrace : TrackerState → List TrackEv → TrackerState → Prop where
  | nil (s : TrackerState) : TrackTrace s [] s
  | cons {s s₁ s₂ : TrackerState} {e : TrackEv} {es : List TrackEv} :
      TrackStep s e s₁ → TrackTrace s₁ es s₂ → TrackTrace s (e :: es) s₂

/-- The configuration in which startTracking leaves the loop when it
returns the handle. -/
def trackerInit : TrackerState := ⟨true, .loopTop⟩

/-- The events that follow the first invocation of the cancellation
handle in an event list. -/
def afterCancel : List TrackEv → List TrackEv
  | [] => []
  | TrackEv.cancel :: rest => rest
  | _ :: rest => afterCancel rest

/-! ### Point store (object identity and cloning, Globe.tsx line 366) -/

/-- A heap of Vector3 objects: references are allocation indices below
next, and val gives each reference's current component values. -/
structure PointStore where
  next : ℕ
  val : ℕ → Vec3

/-- Mutating a Vector3 object in place (for example position.set or
copy on the caller's object). -/
def PointStore.write (s : PointStore) (r : ℕ) (v : Vec3) : PointStore :=
  ⟨s.next, Function.update s.val r v⟩

/-- Globe.tsx updateOrbitLine lines 366-371 at the object level:
const newPoint = position.clone() allocates a fresh object carrying the
argument's current value, and the fresh reference (not the argument) is
pushed into the trail with FIFO trimming. -/
def updateTrailRefs (s : PointStore) (buf : List ℕ) (pos : ℕ) : PointStore × List ℕ :=
  (⟨s.next + 1, Function.update s.val s.next (s.val pos)⟩, pushTrail buf s.next)


/-! ## Projection lemmas and claims C1, C6, C7 -/

/-- On finite inputs the JavaScript-number projection computes the ideal
real-number spherical projection with radius 5.2. -/
theorem issProject_fin (lat lon : ℝ) :
    issProject (.fin lat) (.fin lon) =
      ⟨.fin (-(5.2) * Real.sin ((90 - lat) * (Real.pi / 180)) *
              Real.cos ((lon + 180) * (Real.pi / 180))),
       .fin (5.2 * Real.cos ((90 - lat) * (Real.pi / 180))),
       .fin (5.2 * Real.sin ((90 - lat) * (Real.pi / 180)) *
              Real.sin ((lon + 180) * (Real.pi / 180)))⟩ := by
  simp [issProject, JSNum.mul, JSNum.sub, JSNum.add, JSNum.sin, JSNum.cos]

/-- C1: for every latitude and longitude, the projection of a Position
to a Cartesian point computes exactly phi = (90 - latitude) * (PI/180),
theta = (longitude + 180) * (PI/180), x = -radius*sin(phi)*cos(theta),
y = radius*cos(phi), z = radius*sin(phi)*sin(theta), with radius fixed
at 5.2 scene units. -/
theorem iss_projection_formula (lat lon : ℝ) :
    issProject (.fin lat) (.fin lon) =
      ⟨.fin (-(5.2) * Real.sin ((90 - lat) * (Real.pi / 180)) *
              Real.cos ((lon + 180) * (Real.pi / 180))),
       .fin (5.2 * Real.cos ((90 - lat) * (Real.pi / 180))),
       .fin (5.2 * Real.sin ((90 - lat) * (Real.pi / 180)) *
              Real.sin ((lon + 180) * (Real.pi / 180)))⟩ :=
  issProject_fin lat lon

/-- C6: for all latitude in [-90,90] and longitude in [-180,180], the
projected point's distance from the origin equals the configured radius
5.2 (exactly, in ideal real arithmetic). -/
theorem projection_distance_radius (lat lon : ℝ)
    (_hlat : lat ∈ Set.Icc (-90 : ℝ) 90) (_hlon : lon ∈ Set.Icc (-180 : ℝ) 180) :
    ((issProject (.fin lat) (.fin lon)).toVec3).length = 5.2 := by
  rw [issProject_fin]
  simp only [JSVec3.toVec3, JSNum.toReal, Vec3.length, Vec3.lengthSq]
  rw [show (-(5.2) * Real.sin ((90 - lat) * (Real.pi / 180)) *
              Real.cos ((lon + 180) * (Real.pi / 180))) ^ 2 +
          (5.2 * Real.cos ((90 - lat) * (Real.pi / 180))) ^ 2 +
          (5.2 * Real.sin ((90 - lat) * (Real.pi / 180)) *
              Real.sin ((lon + 180) * (Real.pi / 180))) ^ 2 = (5.2 : ℝ) ^ 2 from by
    have h1 := Real.sin_sq_add_cos_sq ((90 - lat) * (Real.pi / 180))
    have h2 := Real.sin_sq_add_cos_sq ((lon + 180) * (Real.pi / 180))
    linear_combination ((5.2 : ℝ) ^ 2 * Real.sin ((90 - lat) * (Real.pi / 180)) ^ 2) * h2 +
      (5.2 : ℝ) ^ 2 * h1]
  exact Real.sqrt_sq (by norm_num)

/-- Witness for C6 at latitude 0, longitude 0. -/
theorem projection_distance_radius_witness :
    ((issProject (.fin 0) (.fin 0)).toVec3).length = 5.2 :=
  projection_distance_radius 0 0 (by norm_num [Set.mem_Icc]) (by norm_num [Set.mem_Icc])

/-- C7: the projection of (latitude 0, longitude -180) and the
projection of (latitude 0, longitude 180) are the same Cartesian point. -/
theorem projection_antimeridian_wrap :
    issProject (.fin 0) (.fin (-180)) = issProject (.fin 0) (.fin 180) := by
  rw [issProject_fin, issProject_fin]
  rw [show ((-180 : ℝ) + 180) * (Real.pi / 180) = 0 by ring,
      show ((180 : ℝ) + 180) * (Real.pi / 180) = 2 * Real.pi by ring]
  simp [JSVec3.mk.injEq, Real.cos_two_pi, Real.sin_two_pi]


/-! ## Vector-length lemmas -/

/-- The squared length is nonnegative. -/
theorem Vec3.lengthSq_nonneg (v : Vec3) : 0 ≤ v.lengthSq := by
  unfold Vec3.lengthSq; positivity

/-- The length is nonnegative. -/
theorem Vec3.length_nonneg (v : Vec3) : 0 ≤ v.length :=
  Real.sqrt_nonneg _

/-- The square of the length is the squared length. -/
theorem Vec3.sq_length (v : Vec3) : v.length ^ 2 = v.lengthSq :=
  Real.sq_sqrt v.lengthSq_nonneg

/-- A vector has squared length zero exactly when it is the zero vector. -/
theorem Vec3.lengthSq_eq_zero_iff (v : Vec3) : v.lengthSq = 0 ↔ v = ⟨0, 0, 0⟩ := by
  constructor
  · intro h
    have hx : v.x ^ 2 = 0 := by
      have := sq_nonneg v.x; have := sq_nonneg v.y; have := sq_nonneg v.z
      unfold Vec3.lengthSq at h; nlinarith
    have hy : v.y ^ 2 = 0 := by
      have := sq_nonneg v.x; have := sq_nonneg v.y; have := sq_nonneg v.z
      unfold Vec3.lengthSq at h; nlinarith
    have hz : v.z ^ 2 = 0 := by
      have := sq_nonneg v.x; have := sq_nonneg v.y; have := sq_nonneg v.z
      unfold Vec3.lengthSq at h; nlinarith
    ext
    · exact sq_eq_zero_iff.mp hx
    · exact sq_eq_zero_iff.mp hy
    · exact sq_eq_zero_iff.mp hz
  · rintro rfl; simp [Vec3.lengthSq]

/-- A vector has length zero exactly when it is the zero vector. -/
theorem Vec3.length_eq_zero_iff (v : Vec3) : v.length = 0 ↔ v = ⟨0, 0, 0⟩ := by
  rw [Vec3.length, Real.sqrt_eq_zero v.lengthSq_nonneg, Vec3.lengthSq_eq_zero_iff]

/-- Scaling multiplies the squared length by the square of the scalar. -/
theorem Vec3.lengthSq_multiplyScalar (v : Vec3) (s : ℝ) :
    (v.multiplyScalar s).lengthSq = s ^ 2 * v.lengthSq := by
  simp [Vec3.multiplyScalar, Vec3.lengthSq]; ring

/-- Scaling multiplies the length by the absolute value of the scalar. -/
theorem Vec3.length_multiplyScalar (v : Vec3) (s : ℝ) :
    (v.multiplyScalar s).length = |s| * v.length := by
  rw [Vec3.length, Vec3.lengthSq_multiplyScalar, Real.sqrt_mul (sq_nonneg s),
    Real.sqrt_sq_eq_abs, Vec3.length]

/-- Normalizing a vector of nonzero length yields a unit-length vector. -/
theorem Vec3.length_normalize (v : Vec3) (h : v.length ≠ 0) :
    v.normalize.length = 1 := by
  have hpos : 0 < v.length := lt_of_le_of_ne v.length_nonneg (Ne.symm h)
  rw [Vec3.normalize, if_neg h, Vec3.divideScalar, Vec3.length_multiplyScalar,
    abs_of_pos (by positivity)]
  field_simp

/-- Normalizing a vector of nonzero length yields squared length one. -/
theorem Vec3.lengthSq_normalize (v : Vec3) (h : v.length ≠ 0) :
    v.normalize.lengthSq = 1 := by
  rw [← Vec3.sq_length, Vec3.length_normalize v h]; norm_num

/-- Rotation about a unit axis preserves the squared length (polynomial
identity under the unit-axis and Pythagorean constraints). -/
theorem Vec3.lengthSq_applyRotationAxis (axis : Vec3) (angle : ℝ) (v : Vec3)
    (h : axis.lengthSq = 1) :
    (Vec3.applyRotationAxis axis angle v).lengthSq = v.lengthSq := by
  have hsc := Real.sin_sq_add_cos_sq angle
  simp only [Vec3.applyRotationAxis, Vec3.lengthSq] at h ⊢
  linear_combination
    ((v.x ^ 2 + v.y ^ 2 + v.z ^ 2) * Real.sin angle ^ 2 +
        (axis.x * v.x + axis.y * v.y + axis.z * v.z) ^ 2 * (1 - Real.cos angle) ^ 2) * h +
      ((v.x ^ 2 + v.y ^ 2 + v.z ^ 2) -
        (axis.x * v.x + axis.y * v.y + axis.z * v.z) ^ 2) * hsc

/-- Rotation about a unit axis preserves the length. -/
theorem Vec3.length_applyRotationAxis (axis : Vec3) (angle : ℝ) (v : Vec3)
    (h : axis.lengthSq = 1) :
    (Vec3.applyRotationAxis axis angle v).length = v.length := by
  rw [Vec3.length, Vec3.length, Vec3.lengthSq_applyRotationAxis axis angle v h]

/-- The cross product with the zero vector on the left is zero. -/
theorem Vec3.crossVectors_zero_left (b : Vec3) :
    Vec3.crossVectors ⟨0, 0, 0⟩ b = ⟨0, 0, 0⟩ := by
  simp [Vec3.crossVectors]

/-! ## Trail pipeline lemmas -/

/-- Length of the trail after one push-and-trim. -/
theorem pushTrail_length {α : Type} (l : List α) (a : α) :
    (pushTrail l a).length =
      if MAX_TRAIL_LENGTH < l.length + 1 then l.length else l.length + 1 := by
  simp only [pushTrail, List.length_append, List.length_singleton]
  split
  · simp [List.length_tail]
  · simp

/-- The trail after a push is never empty. -/
theorem pushTrail_ne_nil {α : Type} (l : List α) (a : α) : pushTrail l a ≠ [] := by
  intro h
  have h0 : (pushTrail l a).length = 0 := by rw [h]; rfl
  rw [pushTrail_length] at h0
  rcases Nat.lt_or_ge MAX_TRAIL_LENGTH (l.length + 1) with hc | hc
  · rw [if_pos hc] at h0
    unfold MAX_TRAIL_LENGTH at hc
    omega
  · rw [if_neg (Nat.not_lt.mpr hc)] at h0
    omega

/-- The defensive validity filter keeps every stored point. -/
theorem filter_isValidPoint (l : List Vec3) : l.filter Vec3.isValidPoint = l := by
  induction l with
  | nil => rfl
  | cons a t ih => simp [List.filter, Vec3.isValidPoint, ih]

/-- One updateOrbitLine call on a finite position: the guard passes, the
point is pushed with FIFO trimming, and both geometries are rebuilt from
the (identity) filtered trail. -/
theorem updateOrbitLine_run (trail : List Vec3) (pos : Vec3) :
    updateOrbitLine trail pos.toJS =
      ⟨pushTrail trail pos, some (pushTrail trail pos),
        some (computeFuturePoints (pushTrail trail pos))⟩ := by
  have hconv : JSVec3.toVec3 ⟨JSNum.fin pos.x, JSNum.fin pos.y, JSNum.fin pos.z⟩ = pos := rfl
  have hne : (pushTrail trail pos).length ≠ 0 := by
    intro h
    exact pushTrail_ne_nil trail pos (List.length_eq_zero.mp h)
  simp [updateOrbitLine, Vec3.toJS, JSNum.isNaN, hconv, filter_isValidPoint, hne]


/-! ## Future-arc lemmas and claim C2 -/

/-- With fewer than two valid points the future arc is empty. -/
theorem computeFuturePoints_short (validPoints : List Vec3)
    (h : validPoints.length < 2) : computeFuturePoints validPoints = [] := by
  match validPoints, h with
  | [], _ => rfl
  | [a], _ => rfl

/-- Evaluation of the future arc on a trail whose last two points are a
(last) and b (second-to-last). -/
theorem computeFuturePoints_two (a b : Vec3) (rest : List Vec3)
    (validPoints : List Vec3) (hrev : validPoints.reverse = a :: b :: rest) :
    computeFuturePoints validPoints =
      (List.range FUTURE_POINTS).map (fun (k : ℕ) =>
        ((Vec3.applyRotationAxis
            ((Vec3.crossVectors a (Vec3.subVectors a b)).normalize)
            (((k : ℝ) + 1) / (FUTURE_POINTS : ℝ) * Real.pi / 2) a).normalize).multiplyScalar
          a.length) := by
  unfold computeFuturePoints
  rw [hrev]

/-- With at least two valid points and a nondegenerate orbital-plane
normal, every future point keeps the last point's distance from the
origin. -/
theorem computeFuturePoints_constant_radius (validPoints : List Vec3)
    (last second : Vec3) (rest : List Vec3)
    (hrev : validPoints.reverse = last :: second :: rest)
    (hnd : Vec3.crossVectors last (Vec3.subVectors last second) ≠ ⟨0, 0, 0⟩) :
    (computeFuturePoints validPoints).length = FUTURE_POINTS ∧
      ∀ q ∈ computeFuturePoints validPoints, q.length = last.length := by
  rw [computeFuturePoints_two last second rest validPoints hrev]
  constructor
  · rw [List.length_map, List.length_range]
  · intro q hq
    rw [List.mem_map] at hq
    obtain ⟨k, _, rfl⟩ := hq
    have hlast0 : last ≠ ⟨0, 0, 0⟩ := by
      intro h
      exact hnd (by rw [h, Vec3.crossVectors_zero_left])
    have hL : last.length ≠ 0 := fun h => hlast0 ((Vec3.length_eq_zero_iff last).mp h)
    have hcl : (Vec3.crossVectors last (Vec3.subVectors last second)).length ≠ 0 :=
      fun h => hnd ((Vec3.length_eq_zero_iff _).mp h)
    have haxis := Vec3.lengthSq_normalize _ hcl
    have hrot := Vec3.length_applyRotationAxis
      ((Vec3.crossVectors last (Vec3.subVectors last second)).normalize)
      (((k : ℝ) + 1) / (FUTURE_POINTS : ℝ) * Real.pi / 2) last haxis
    have hrot0 : (Vec3.applyRotationAxis
        ((Vec3.crossVectors last (Vec3.subVectors last second)).normalize)
        (((k : ℝ) + 1) / (FUTURE_POINTS : ℝ) * Real.pi / 2) last).length ≠ 0 := by
      rw [hrot]; exact hL
    rw [Vec3.length_multiplyScalar, Vec3.length_normalize _ hrot0, mul_one,
      abs_of_nonneg last.length_nonneg]

/-- C2 (amended): after an update with fewer than 2 points in the trail
the future arc is empty; with at least 2 points and a nondegenerate
orbital-plane normal (cross product of last point and velocity nonzero),
the future arc has exactly 200 points, each at the last point's distance
from the origin. -/
theorem future_arc_constant_radius :
    (∀ (trail : List Vec3) (pos : Vec3),
        (pushTrail trail pos).length < 2 →
        (updateOrbitLine trail pos.toJS).futureLine = some []) ∧
    (∀ (trail : List Vec3) (pos last second : Vec3) (rest : List Vec3),
        (pushTrail trail pos).reverse = last :: second :: rest →
        Vec3.crossVectors last (Vec3.subVectors last second) ≠ ⟨0, 0, 0⟩ →
        (updateOrbitLine trail pos.toJS).futureLine =
            some (computeFuturePoints (pushTrail trail pos)) ∧
          (computeFuturePoints (pushTrail trail pos)).length = FUTURE_POINTS ∧
          ∀ q ∈ computeFuturePoints (pushTrail trail pos), q.length = last.length) := by
  constructor
  · intro trail pos h
    rw [updateOrbitLine_run, computeFuturePoints_short _ h]
  · intro trail pos last second rest hrev hnd
    refine ⟨by rw [updateOrbitLine_run], ?_, ?_⟩
    · exact (computeFuturePoints_constant_radius _ last second rest hrev hnd).1
    · exact (computeFuturePoints_constant_radius _ last second rest hrev hnd).2

/-- Witness for C2 on the two-point trail (1,0,0), (0,1,0). -/
theorem future_arc_constant_radius_witness :
    (updateOrbitLine [(⟨1, 0, 0⟩ : Vec3)] (⟨0, 1, 0⟩ : Vec3).toJS).futureLine =
        some (computeFuturePoints (pushTrail [(⟨1, 0, 0⟩ : Vec3)] ⟨0, 1, 0⟩)) ∧
      (computeFuturePoints (pushTrail [(⟨1, 0, 0⟩ : Vec3)] ⟨0, 1, 0⟩)).length = FUTURE_POINTS ∧
      ∀ q ∈ computeFuturePoints (pushTrail [(⟨1, 0, 0⟩ : Vec3)] ⟨0, 1, 0⟩),
        q.length = (⟨0, 1, 0⟩ : Vec3).length :=
  future_arc_constant_radius.2 [⟨1, 0, 0⟩] ⟨0, 1, 0⟩ ⟨0, 1, 0⟩ ⟨1, 0, 0⟩ []
    (by simp [pushTrail, MAX_TRAIL_LENGTH])
    (by simp [Vec3.crossVectors, Vec3.subVectors, Vec3.mk.injEq])

/-- C2 as frozen is false on the code: on the degenerate trail obtained
by appending the same point (5.2,0,0) twice, the velocity is zero, the
orbital-plane normal degenerates to the zero vector, and the 200th
future point (rotation angle pi/2) collapses to the origin, whose
distance 0 differs from the last point's distance 5.2. -/
theorem future_arc_degenerate_counterexample :
    ¬ (∀ (trail : List Vec3) (pos last second : Vec3) (rest : List Vec3),
        (pushTrail trail pos).reverse = last :: second :: rest →
        ∀ F, (updateOrbitLine trail pos.toJS).futureLine = some F →
          F.length = FUTURE_POINTS ∧ ∀ q ∈ F, q.length = last.length) := by
  intro hclaim
  set v : Vec3 := ⟨5.2, 0, 0⟩ with hv
  have hpush : pushTrail [v] v = [v, v] := by simp [pushTrail, MAX_TRAIL_LENGTH]
  have hrev : (pushTrail [v] v).reverse = v :: v :: [] := by rw [hpush]; rfl
  have hF := hclaim [v] v v v [] hrev (computeFuturePoints (pushTrail [v] v))
    (by rw [updateOrbitLine_run])
  have hsub : Vec3.subVectors v v = ⟨0, 0, 0⟩ := by simp [Vec3.subVectors]
  have hcross : Vec3.crossVectors v ⟨0, 0, 0⟩ = ⟨0, 0, 0⟩ := by
    simp [Vec3.crossVectors]
  have hzlen : (⟨0, 0, 0⟩ : Vec3).length = 0 := by
    simp [Vec3.length, Vec3.lengthSq]
  have hnorm0 : (⟨0, 0, 0⟩ : Vec3).normalize = ⟨0, 0, 0⟩ := by
    simp [Vec3.normalize, Vec3.divideScalar, Vec3.multiplyScalar, hzlen]
  have hang : (((199 : ℕ) : ℝ) + 1) / (FUTURE_POINTS : ℝ) * Real.pi / 2 = Real.pi / 2 := by
    simp [FUTURE_POINTS]
    norm_num
  have hrotz : Vec3.applyRotationAxis ⟨0, 0, 0⟩ (Real.pi / 2) v = ⟨0, 0, 0⟩ := by
    simp [Vec3.applyRotationAxis, Real.cos_pi_div_two, Real.sin_pi_div_two]
  have hmem : (⟨0, 0, 0⟩ : Vec3) ∈ computeFuturePoints (pushTrail [v] v) := by
    rw [hpush, computeFuturePoints_two v v [] [v, v] rfl]
    have h199 : (199 : ℕ) ∈ List.range FUTURE_POINTS :=
      List.mem_range.mpr (by norm_num [FUTURE_POINTS])
    have hfval : (fun k : ℕ =>
        ((Vec3.applyRotationAxis
            ((Vec3.crossVectors v (Vec3.subVectors v v)).normalize)
            (((k : ℝ) + 1) / (FUTURE_POINTS : ℝ) * Real.pi / 2) v).normalize).multiplyScalar
          v.length) 199 = (⟨0, 0, 0⟩ : Vec3) := by
      simp only [hsub, hcross, hnorm0, hang, hrotz]
      simp [Vec3.multiplyScalar]
    exact hfval ▸ List.mem_map_of_mem _ h199
  have hlen0 := hF.2 _ hmem
  rw [hzlen] at hlen0
  have hvlen : v.length = 5.2 := by
    rw [Vec3.length, show v.lengthSq = (5.2 : ℝ) ^ 2 by norm_num [Vec3.lengthSq, hv],
      Real.sqrt_sq (by norm_num)]
  rw [hvlen] at hlen0
  norm_num at hlen0


/-! ## Claim C3: trail bound and FIFO eviction -/

/-- One push-and-trim keeps the trail within the maximum length. -/
theorem pushTrail_length_le {α : Type} (ps : List α) (p : α)
    (h : ps.length ≤ MAX_TRAIL_LENGTH) :
    (pushTrail ps p).length ≤ MAX_TRAIL_LENGTH := by
  rw [pushTrail_length]
  split
  · exact h
  · omega

/-- C3: for every sequence of appended points (from any start within the
bound) the trail buffer length never exceeds MAX_TRAIL_LENGTH = 100;
an append from a full buffer evicts exactly the point at position 0,
appending the new point at the end (FIFO), and an append from a
non-full buffer is a plain append. -/
theorem trail_buffer_fifo_bound :
    (∀ (start pts : List Vec3), start.length ≤ MAX_TRAIL_LENGTH →
        (pts.foldl pushTrail start).length ≤ MAX_TRAIL_LENGTH) ∧
    (∀ (ps : List Vec3) (p : Vec3), ps.length = MAX_TRAIL_LENGTH →
        pushTrail ps p = ps.tail ++ [p]) ∧
    (∀ (ps : List Vec3) (p : Vec3), ps.length < MAX_TRAIL_LENGTH →
        pushTrail ps p = ps ++ [p]) := by
  refine ⟨?_, ?_, ?_⟩
  · intro start pts h
    induction pts generalizing start with
    | nil => simpa using h
    | cons a t ih =>
        simp only [List.foldl_cons]
        exact ih (pushTrail start a) (pushTrail_length_le start a h)
  · intro ps p h
    rcases ps with _ | ⟨a, t⟩
    · simp [MAX_TRAIL_LENGTH] at h
    · simp only [pushTrail]
      rw [if_pos]
      · simp
      · simp only [List.length_append, List.length_cons, List.length_singleton]
        simp only [List.length_cons] at h
        omega
  · intro ps p h
    simp only [pushTrail]
    rw [if_neg]
    simp only [List.length_append, List.length_singleton]
    omega

/-- Witness for C3: one append to the empty trail stays within the bound. -/
theorem trail_buffer_fifo_bound_witness :
    (([(⟨1, 2, 3⟩ : Vec3)]).foldl pushTrail ([] : List Vec3)).length ≤ MAX_TRAIL_LENGTH :=
  trail_buffer_fifo_bound.1 [] [⟨1, 2, 3⟩] (by simp)

/-! ## Claim C10: cloning isolates the trail from caller mutation -/

/-- Membership in the trail after a push comes from the old trail or is
the new point. -/
theorem mem_pushTrail {α : Type} {r x : α} {l : List α}
    (h : r ∈ pushTrail l x) : r ∈ l ∨ r = x := by
  have h' : r ∈ l ++ [x] := by
    simp only [pushTrail] at h
    split at h
    · exact List.mem_of_mem_tail h
    · exact h
  rcases List.mem_append.mp h' with h'' | h''
  · exact Or.inl h''
  · exact Or.inr (List.mem_singleton.mp h'')

/-- C10: updateOrbitLine clones the incoming point before appending it,
so writing any value to the caller's point object afterwards changes
none of the buffered point values; meanwhile the fresh clone holds the
value the caller's object had at push time. -/
theorem trail_clone_isolation (s : PointStore) (buf : List ℕ) (pos : ℕ) (w : Vec3)
    (hpos : pos < s.next) (hbuf : pos ∉ buf) :
    ((updateTrailRefs s buf pos).2.map
        (((updateTrailRefs s buf pos).1.write pos w).val)) =
      (updateTrailRefs s buf pos).2.map (updateTrailRefs s buf pos).1.val ∧
    ((updateTrailRefs s buf pos).1.write pos w).val pos = w ∧
    (updateTrailRefs s buf pos).1.val s.next = s.val pos := by
  refine ⟨?_, ?_, ?_⟩
  · refine List.map_congr_left ?_
    intro r hr
    have hrne : r ≠ pos := by
      simp only [updateTrailRefs] at hr
      rcases mem_pushTrail hr with h | h
      · exact fun he => hbuf (he ▸ h)
      · exact fun he => by omega
    simp [PointStore.write, Function.update_apply, hrne]
  · simp [PointStore.write, Function.update_apply]
  · have hne : s.next ≠ pos := by omega
    simp [updateTrailRefs, Function.update_apply]

/-- Witness for C10 on a one-object store. -/
theorem trail_clone_isolation_witness :
    ((updateTrailRefs ⟨1, fun _ => ⟨0, 0, 0⟩⟩ [] 0).2.map
        (((updateTrailRefs ⟨1, fun _ => ⟨0, 0, 0⟩⟩ [] 0).1.write 0 ⟨1, 1, 1⟩).val)) =
      (updateTrailRefs ⟨1, fun _ => ⟨0, 0, 0⟩⟩ [] 0).2.map
        (updateTrailRefs ⟨1, fun _ => ⟨0, 0, 0⟩⟩ [] 0).1.val ∧
    ((updateTrailRefs ⟨1, fun _ => ⟨0, 0, 0⟩⟩ [] 0).1.write 0 ⟨1, 1, 1⟩).val 0 = ⟨1, 1, 1⟩ ∧
    (updateTrailRefs ⟨1, fun _ => ⟨0, 0, 0⟩⟩ [] 0).1.val 1 = (⟨0, 0, 0⟩ : Vec3) :=
  trail_clone_isolation ⟨1, fun _ => ⟨0, 0, 0⟩⟩ [] 0 ⟨1, 1, 1⟩ (by norm_num) (by simp)


/-! ## Claim C5: non-finite inputs are rejected -/

/-- The conversion factor pi/180 is positive (used to resolve the
signed-infinity multiplication cases). -/
theorem pi180_pos : (0 : ℝ) < Real.pi / 180 := by positivity

/-- No component of the projection is ever a signed infinity: sine and
cosine return a finite value or NaN, and products of finite values with
finite values or NaN stay finite or NaN. -/
theorem issProject_not_inf (lat lon : JSNum) :
    ((issProject lat lon).x ≠ JSNum.posInf ∧ (issProject lat lon).x ≠ JSNum.negInf) ∧
    ((issProject lat lon).y ≠ JSNum.posInf ∧ (issProject lat lon).y ≠ JSNum.negInf) ∧
    ((issProject lat lon).z ≠ JSNum.posInf ∧ (issProject lat lon).z ≠ JSNum.negInf) := by
  rcases lat with a | _ | _ | _ <;> rcases lon with b | _ | _ | _ <;>
    simp [issProject, JSNum.mul, JSNum.sub, JSNum.add, JSNum.sin, JSNum.cos, pi180_pos,
      Real.pi_pos]

/-- A non-finite latitude or longitude makes some projected component
NaN. -/
theorem issProject_nan_of_nonfinite (lat lon : JSNum)
    (h : lat.isFinite = false ∨ lon.isFinite = false) :
    (issProject lat lon).x.isNaN = true ∨ (issProject lat lon).y.isNaN = true ∨
      (issProject lat lon).z.isNaN = true := by
  rcases lat with a | _ | _ | _ <;> rcases lon with b | _ | _ | _ <;>
    simp_all [issProject, JSNum.mul, JSNum.sub, JSNum.add, JSNum.sin, JSNum.cos,
      JSNum.isNaN, JSNum.isFinite, pi180_pos, Real.pi_pos]

/-- A value that is neither finite nor a signed infinity is NaN. -/
theorem JSNum.isNaN_of_nonfinite (n : JSNum) (h : n.isFinite = false)
    (h1 : n ≠ JSNum.posInf) (h2 : n ≠ JSNum.negInf) : n.isNaN = true := by
  cases n <;> simp_all [JSNum.isFinite, JSNum.isNaN]

/-- The NaN guard of updateISSPosition fires when some projected
component is NaN, leaving the trail unchanged. -/
theorem updateISSPosition_guard (position : ISSPosition) (orbitPoints : List Vec3)
    (h : (issProject position.latitude position.longitude).x.isNaN = true ∨
      (issProject position.latitude position.longitude).y.isNaN = true ∨
      (issProject position.latitude position.longitude).z.isNaN = true) :
    updateISSPosition position orbitPoints = ⟨orbitPoints, none, none⟩ := by
  unfold updateISSPosition
  rcases h with h | h | h <;> simp [h]

/-- C5: a non-finite latitude or longitude — and likewise any call whose
resulting x/y/z is non-finite, and any orbit-line update on a NaN
component — is rejected: the call returns with the trail buffer exactly
as it was and no geometry update. -/
theorem nonfinite_position_rejected :
    (∀ (position : ISSPosition) (orbitPoints : List Vec3),
        position.latitude.isFinite = false ∨ position.longitude.isFinite = false →
        updateISSPosition position orbitPoints = ⟨orbitPoints, none, none⟩) ∧
    (∀ (position : ISSPosition) (orbitPoints : List Vec3),
        (issProject position.latitude position.longitude).x.isFinite = false ∨
        (issProject position.latitude position.longitude).y.isFinite = false ∨
        (issProject position.latitude position.longitude).z.isFinite = false →
        updateISSPosition position orbitPoints = ⟨orbitPoints, none, none⟩) ∧
    (∀ (orbitPoints : List Vec3) (position : JSVec3),
        (position.x.isNaN || position.y.isNaN || position.z.isNaN) = true →
        updateOrbitLine orbitPoints position = ⟨orbitPoints, none, none⟩) := by
  refine ⟨?_, ?_, ?_⟩
  · intro position orbitPoints h
    exact updateISSPosition_guard position orbitPoints
      (issProject_nan_of_nonfinite position.latitude position.longitude h)
  · intro position orbitPoints h
    have hni := issProject_not_inf position.latitude position.longitude
    refine updateISSPosition_guard position orbitPoints ?_
    rcases h with h | h | h
    · exact Or.inl (JSNum.isNaN_of_nonfinite _ h hni.1.1 hni.1.2)
    · exact Or.inr (Or.inl (JSNum.isNaN_of_nonfinite _ h hni.2.1.1 hni.2.1.2))
    · exact Or.inr (Or.inr (JSNum.isNaN_of_nonfinite _ h hni.2.2.1 hni.2.2.2))
  · intro orbitPoints position h
    simp only [updateOrbitLine]
    rw [if_pos h]

/-- Witness for C5: a NaN latitude with the empty trail. -/
theorem nonfinite_position_rejected_witness :
    updateISSPosition ⟨JSNum.nan, JSNum.fin 0, 408, 7.66⟩ [] =
      ⟨([] : List Vec3), none, none⟩ :=
  nonfinite_position_rejected.1 ⟨JSNum.nan, JSNum.fin 0, 408, 7.66⟩ [] (Or.inl rfl)


/-! ## Claim C4: behaviour after cancellation -/

/-- How many more onError deliveries a cancelled loop can still make
from a given control location: one when the aborted in-flight fetch has
yet to report, none otherwise. -/
def errBudget : TrackPhase → ℕ
  | .fetchingAborted => 1
  | _ => 0

/-- Once isTracking is false, no trace issues a request, and onError
fires at most errBudget more times. -/
theorem trace_quiescent_of_cancelled {s s' : TrackerState} {ls : List TrackEv}
    (ht : TrackTrace s ls s') (hs : s.isTracking = false) :
    TrackEv.req ∉ ls ∧ ls.count TrackEv.err ≤ errBudget s.phase := by
  induction ht with
  | nil _ => simp
  | @cons s s₁ s₂ e es hstep htail ih =>
      cases hstep with
      | startFetch => simp at hs
      | fetchOk => simp at hs
      | fetchFail => simp at hs
      | cancelAtLoopTop => simp at hs
      | cancelAtDelay => simp at hs
      | cancelAtFetch => simp at hs
      | exitLoop =>
          obtain ⟨ih1, ih2⟩ := ih rfl
          refine ⟨by simp [ih1], ?_⟩
          simp only [errBudget] at ih2 ⊢
          simp [List.count_cons, ih2]
      | fetchAbortedFail =>
          obtain ⟨ih1, ih2⟩ := ih rfl
          refine ⟨by simp [ih1], ?_⟩
          simp only [errBudget] at ih2 ⊢
          simp only [List.count_cons]
          simp
          omega
      | delayDone t =>
          obtain ⟨ih1, ih2⟩ := ih hs
          refine ⟨by simp [ih1], ?_⟩
          simp only [errBudget] at ih2 ⊢
          simp [List.count_cons, ih2]

/-- From a live loop, after the cancellation event no request is issued
and at most one more onError fires. -/
theorem trace_quiescent_after_cancel {s s' : TrackerState} {ls : List TrackEv}
    (ht : TrackTrace s ls s') (hs : s.isTracking = true) :
    TrackEv.req ∉ afterCancel ls ∧ (afterCancel ls).count TrackEv.err ≤ 1 := by
  induction ht with
  | nil _ => simp [afterCancel]
  | @cons s s₁ s₂ e es hstep htail ih =>
      cases hstep with
      | exitLoop => simp at hs
      | fetchAbortedFail => simp at hs
      | cancelAtLoopTop =>
          obtain ⟨h1, h2⟩ := trace_quiescent_of_cancelled htail rfl
          simp only [errBudget] at h2
          exact ⟨by simpa [afterCancel] using h1, by simpa [afterCancel] using h2.trans (by omega)⟩
      | cancelAtDelay =>
          obtain ⟨h1, h2⟩ := trace_quiescent_of_cancelled htail rfl
          simp only [errBudget] at h2
          exact ⟨by simpa [afterCancel] using h1, by simpa [afterCancel] using h2.trans (by omega)⟩
      | cancelAtFetch =>
          obtain ⟨h1, h2⟩ := trace_quiescent_of_cancelled htail rfl
          simp only [errBudget] at h2
          exact ⟨by simpa [afterCancel] using h1, by simpa [afterCancel] using h2⟩
      | startFetch =>
          obtain ⟨ih1, ih2⟩ := ih rfl
          exact ⟨by simpa [afterCancel] using ih1, by simpa [afterCancel] using ih2⟩
      | fetchOk =>
          obtain ⟨ih1, ih2⟩ := ih rfl
          exact ⟨by simpa [afterCancel] using ih1, by simpa [afterCancel] using ih2⟩
      | fetchFail =>
          obtain ⟨ih1, ih2⟩ := ih rfl
          exact ⟨by simpa [afterCancel] using ih1, by simpa [afterCancel] using ih2⟩
      | delayDone t =>
          obtain ⟨ih1, ih2⟩ := ih hs
          exact ⟨by simpa [afterCancel] using ih1, by simpa [afterCancel] using ih2⟩

/-- C4 (amended): after the cancellation handle is invoked, no further
network requests are issued, and at most one further onError call — the
report of the aborted in-flight fetch when cancellation interrupts a
fetch — can occur, after which no more onError calls occur. -/
theorem tracking_cancel_quiescent (ls : List TrackEv) (s' : TrackerState)
    (ht : TrackTrace trackerInit ls s') :
    TrackEv.req ∉ afterCancel ls ∧ (afterCancel ls).count TrackEv.err ≤ 1 :=
  trace_quiescent_after_cancel ht rfl

/-- Witness for C4 on the trace request, cancel, abort-report. -/
theorem tracking_cancel_quiescent_witness :
    TrackEv.req ∉ afterCancel [TrackEv.req, TrackEv.cancel, TrackEv.err] ∧
      (afterCancel [TrackEv.req, TrackEv.cancel, TrackEv.err]).count TrackEv.err ≤ 1 :=
  tracking_cancel_quiescent [TrackEv.req, TrackEv.cancel, TrackEv.err]
    ⟨false, TrackPhase.delaying⟩
    (TrackTrace.cons TrackStep.startFetch
      (TrackTrace.cons TrackStep.cancelAtFetch
        (TrackTrace.cons TrackStep.fetchAbortedFail (TrackTrace.nil _))))

/-- C4 as frozen is false on the code: when the handle is invoked while
a fetch is in flight, the aborted request is reported through onError
after the cancellation (the loop funnels the AbortError into onError
before re-checking isTracking), as the trace request, cancel,
abort-report shows. -/
theorem tracking_cancel_counterexample :
    ¬ (∀ (ls : List TrackEv) (s' : TrackerState), TrackTrace trackerInit ls s' →
        TrackEv.req ∉ afterCancel ls ∧ TrackEv.err ∉ afterCancel ls) := by
  intro h
  have htr : TrackTrace trackerInit [TrackEv.req, TrackEv.cancel, TrackEv.err]
      ⟨false, TrackPhase.delaying⟩ :=
    TrackTrace.cons TrackStep.startFetch
      (TrackTrace.cons TrackStep.cancelAtFetch
        (TrackTrace.cons TrackStep.fetchAbortedFail (TrackTrace.nil _)))
  have hcontra := (h _ _ htr).2
  simp [afterCancel] at hcontra


/-! ## Claims C8 and C9: response normalization -/

/-- C8: every Position produced by a successful fetch carries the
hardcoded altitude 408 and velocity 7.66, regardless of the payload's
content. -/
theorem position_constant_altitude_velocity (data : IssApiResponse) (p : ISSPosition)
    (h : getPositionData data = .ok p) : p.altitude = 408 ∧ p.velocity = 7.66 := by
  cases hd : data.iss_position with
  | none =>
      unfold getPositionData at h
      rw [hd] at h
      exact absurd h (by simp)
  | some raw =>
      unfold getPositionData at h
      rw [hd] at h
      injection h with h'
      rw [← h']
      exact ⟨rfl, rfl⟩

/-- Witness for C8 on a payload with coordinates 10 and 20. -/
theorem position_constant_altitude_velocity_witness :
    (⟨parseFloat "10", parseFloat "20", 408, 7.66⟩ : ISSPosition).altitude = 408 ∧
      (⟨parseFloat "10", parseFloat "20", 408, 7.66⟩ : ISSPosition).velocity = 7.66 :=
  position_constant_altitude_velocity ⟨some ⟨"10", "20"⟩⟩
    ⟨parseFloat "10", parseFloat "20", 408, 7.66⟩ rfl

/-- C9: any payload with an iss_position field is delivered through
onUpdate as the raw parseFloat of its string fields, with no range or
NaN validation; in particular a non-numeric string parses to NaN and the
resulting NaN-coordinate Position still goes to onUpdate, not onError. -/
theorem parse_passthrough_no_validation :
    (∀ raw : IssPositionRaw,
        trackTick (getPositionData ⟨some raw⟩) =
          TrackCallback.update
            ⟨parseFloat raw.latitude, parseFloat raw.longitude, 408, 7.66⟩) ∧
    parseFloat "not-a-number" = JSNum.nan := by
  constructor
  · intro raw
    rfl
  · rfl

end
